import Mathlib

/-
  Verification of the adb-multiplexer orchestrator (src/adb-multiplexer.js).

  The embedding models the orchestrator functions of the single source file:
  executeForOnlineDevices, executeCommandOnDevices, formatDeviceList,
  newOrChangedDevicesListener, executeForFutureDevices, and the top-level
  try/catch main flow.  Console output is modelled as a trace of output
  events (stdout via console.log, stderr via console.error); the terminal
  colouring applied by the colors library (.red, .green, .cyan) is pure
  display styling and is not modelled.  Calls into the DeviceDetector
  (on, watch, unwatch) are modelled as a trace of detector calls.  The
  external execution backend device.executeCommandSync(command), which
  returns captured output or throws a String error message, is a function
  parameter of type Device -> String -> Except String String.
-/

namespace AdbMultiplexer

/-- Connectivity state of a device (spec section 3: Online, Offline,
Unauthorized). -/
inductive DeviceState
  | online
  | offline
  | unauthorized
deriving DecidableEq

/-- Modelled from the spec: the Device module (modules/DeviceDetector,
not under src/) gives each device an id, a model name and a connectivity
state.  Its toStatusString() rendering is deterministic but its exact
format is external, so it is carried as the statusString field. -/
structure Device where
  id : String
  model : String
  state : DeviceState
  statusString : String
deriving DecidableEq

/-- Modelled from the spec: Device.isOnline() is true iff the state is
Online (spec section 4.1). -/
def Device.isOnline (d : Device) : Bool :=
  d.state == DeviceState.online

/-- Modelled from the spec: Device.toStatusString() is the deterministic
one-line status rendering carried by the device record. -/
def Device.toStatusString (d : Device) : String :=
  d.statusString

/-- One console output event: log is console.log (stdout), err is
console.error (stderr). -/
inductive Out
  | log (s : String)
  | err (s : String)
deriving DecidableEq

/-- The external execution backend: device.executeCommandSync(command)
returns the captured output, or throws a String error message (modelled
as Except.error). -/
def ExecFn : Type :=
  Device → String → Except String String

/-- Embeds formatDeviceList (src/adb-multiplexer.js lines 139-143):
a reduce over the device list appending one line per device. -/
def formatDeviceList (deviceList : List Device) : String :=
  deviceList.foldl
    (fun previousValue device => previousValue ++ "- " ++ device.toStatusString ++ "\n")
    ""

/-- The online filter inside executeForOnlineDevices
(src/adb-multiplexer.js lines 98-100). -/
def onlineDevices (devices : List Device) : List Device :=
  devices.filter (fun device => device.isOnline)

/-- The offline filter inside executeForOnlineDevices
(src/adb-multiplexer.js lines 101-103). -/
def offlineDevices (devices : List Device) : List Device :=
  devices.filter (fun device => !device.isOnline)

/-- The four console.log lines printed before executing on one device
(src/adb-multiplexer.js lines 122-125).  A console.log call with several
arguments joins them with single spaces. -/
def deviceHeader (device : Device) : List Out :=
  [Out.log "",
   Out.log "========================================",
   Out.log ("Result for " ++ device.id ++ " (" ++ device.model ++ ")"),
   Out.log "========================================"]

/-- Result of running a batch: the console output trace, the devices on
which executeCommandSync was actually invoked (in invocation order), and
the error message thrown out of the run, if any. -/
structure RunResult where
  output : List Out
  executed : List Device
  thrown : Option String
deriving DecidableEq

/-- Embeds executeCommandOnDevices (src/adb-multiplexer.js lines
120-130): a forEach over the devices printing a labeled header block,
then invoking executeCommandSync and printing its result.  A thrown
error propagates out of forEach, aborting the remaining iterations. -/
def executeCommandOnDevices (exec : ExecFn) (devices : List Device) (command : String) :
    RunResult :=
  match devices with
  | [] => { output := [], executed := [], thrown := none }
  | device :: rest =>
    match exec device command with
    | Except.error e =>
      { output := deviceHeader device, executed := [device], thrown := some e }
    | Except.ok result =>
      let r := executeCommandOnDevices exec rest command
      { output := deviceHeader device ++ [Out.log result] ++ r.output,
        executed := device :: r.executed,
        thrown := r.thrown }

/-- Embeds executeForOnlineDevices (src/adb-multiplexer.js lines
97-113): partition into online and offline devices, then either execute
on the online ones, report the offline ones, or report that no devices
were detected. -/
def executeForOnlineDevices (exec : ExecFn) (devices : List Device) (command : String) :
    RunResult :=
  if (onlineDevices devices).length > 0 then
    let r := executeCommandOnDevices exec (onlineDevices devices) command
    { output := Out.log ("devices detected:\n" ++ formatDeviceList (onlineDevices devices))
        :: r.output,
      executed := r.executed,
      thrown := r.thrown }
  else if (offlineDevices devices).length > 0 then
    { output := [Out.log ("offline devices detected:\n"
        ++ formatDeviceList (offlineDevices devices))],
      executed := [],
      thrown := none }
  else
    { output := [Out.err "no devices detected\n"],
      executed := [],
      thrown := none }

/-- Identifies which listener function is registered on the detector:
the source registers the single function newOrChangedDevicesListener. -/
inductive ListenerTag
  | newOrChanged
deriving DecidableEq

/-- One call made on the DeviceDetector instance. -/
inductive DetectorCall
  | onDevicesAdded (l : ListenerTag)
  | onDevicesChanged (l : ListenerTag)
  | watch
  | unwatch
deriving DecidableEq

/-- Result of one listener invocation: console output, devices on which
executeCommandSync was invoked, and the detector calls the listener
made. -/
structure ListenerResult where
  output : List Out
  executed : List Device
  calls : List DetectorCall
deriving DecidableEq

/-- Embeds newOrChangedDevicesListener (src/adb-multiplexer.js lines
67-74): run executeForOnlineDevices on the notified devices; if it
throws, print the error to stderr and call deviceDetector.unwatch(). -/
def newOrChangedDevicesListener (exec : ExecFn) (command : String) (devices : List Device) :
    ListenerResult :=
  let r := executeForOnlineDevices exec devices command
  match r.thrown with
  | none => { output := r.output, executed := r.executed, calls := [] }
  | some e =>
    { output := r.output ++ [Out.err e],
      executed := r.executed,
      calls := [DetectorCall.unwatch] }

/-- Dispatch from a registered listener tag to the listener function it
names. -/
def runListener : ListenerTag → ExecFn → String → List Device → ListenerResult
  | ListenerTag.newOrChanged => newOrChangedDevicesListener

/-- Embeds executeForFutureDevices (src/adb-multiplexer.js lines
83-87): the sequence of detector calls it makes, in order: subscribe
the listener to devicesAdded, subscribe it to devicesChanged, then
start the watch. -/
def executeForFutureDevices : List DetectorCall :=
  [DetectorCall.onDevicesAdded ListenerTag.newOrChanged,
   DetectorCall.onDevicesChanged ListenerTag.newOrChanged,
   DetectorCall.watch]

/-- How the top-level script run ends: an explicit process.exit with a
code, or normal completion (exit code 0; in continuous mode the armed
watch keeps the process alive until externally terminated). -/
inductive Outcome
  | exited (code : Nat)
  | completed
deriving DecidableEq

/-- Result of the top-level script run. -/
structure MainResult where
  output : List Out
  executed : List Device
  outcome : Outcome
  calls : List DetectorCall
deriving DecidableEq

/-- Embeds the top-level flow (src/adb-multiplexer.js lines 44-56):
try executeForOnlineDevices on getDevices(); on any thrown error print
it to stderr and process.exit(1); otherwise, when the continue flag is
set, call executeForFutureDevices.  getDevices is modelled as an Except:
error is a thrown DetectionError message. -/
def mainRun (getDevices : Except String (List Device)) (exec : ExecFn) (command : String)
    (continueFlag : Bool) : MainResult :=
  match getDevices with
  | Except.error e =>
    { output := [Out.err e], executed := [], outcome := Outcome.exited 1, calls := [] }
  | Except.ok devices =>
    let r := executeForOnlineDevices exec devices command
    match r.thrown with
    | some e =>
      { output := r.output ++ [Out.err e], executed := r.executed,
        outcome := Outcome.exited 1, calls := [] }
    | none =>
      { output := r.output, executed := r.executed, outcome := Outcome.completed,
        calls := if continueFlag then executeForFutureDevices else [] }

/-- The output block for one device whose execution succeeds with result
res device: the labeled header followed by the result line. -/
def successBlock (res : Device → String) (device : Device) : List Out :=
  deviceHeader device ++ [Out.log (res device)]

/-- Concrete fixture: an online device A. -/
def devA : Device :=
  { id := "A", model := "Pixel", state := DeviceState.online, statusString := "A Pixel online" }

/-- Concrete fixture: an offline device B. -/
def devB : Device :=
  { id := "B", model := "Nexus", state := DeviceState.offline, statusString := "B Nexus offline" }

/-- Concrete fixture: an online device C. -/
def devC : Device :=
  { id := "C", model := "Tab", state := DeviceState.online, statusString := "C Tab online" }

/-- Concrete fixture: an online device D. -/
def devD : Device :=
  { id := "D", model := "Fold", state := DeviceState.online, statusString := "D Fold online" }

/-- Concrete fixture: an execution backend that always throws. -/
def failingExec : ExecFn :=
  fun _ _ => Except.error "command failed"

/-- Concrete fixture: an execution backend that always succeeds, with an
output determined by the device id. -/
def okExec : ExecFn :=
  fun device _ => Except.ok ("output for " ++ device.id)

/-- Concrete fixture: an execution backend that throws exactly on device
id C and succeeds elsewhere. -/
def failOnCExec : ExecFn :=
  fun device _ =>
    if device.id == "C" then Except.error "boom" else Except.ok ("output for " ++ device.id)

--==============================
-- helper lemmas
--==============================

lemma join_cons (s : String) (ss : List String) :
    String.join (s :: ss) = s ++ String.join ss := by
  apply String.ext
  simp [String.join_eq]

lemma foldl_append_join (f : Device → String) (l : List Device) :
    ∀ acc : String, l.foldl (fun a d => a ++ f d) acc = acc ++ String.join (l.map f) := by
  induction l with
  | nil => intro acc; simp [String.join]
  | cons d t ih =>
    intro acc
    simp only [List.foldl_cons, List.map_cons]
    rw [ih, join_cons]
    apply String.ext
    simp

lemma executeCommandOnDevices_executed_sublist (exec : ExecFn) (command : String) :
    ∀ devices : List Device,
      ((executeCommandOnDevices exec devices command).executed).Sublist devices := by
  intro devices
  induction devices with
  | nil => simp [executeCommandOnDevices]
  | cons d t ih =>
    simp only [executeCommandOnDevices]
    cases exec d command with
    | error e => simp
    | ok result => simpa using List.Sublist.cons₂ d ih

lemma executeCommandOnDevices_success (exec : ExecFn) (command : String)
    (res : Device → String) :
    ∀ devices : List Device, (∀ d ∈ devices, exec d command = Except.ok (res d)) →
      executeCommandOnDevices exec devices command =
        { output := devices.flatMap (successBlock res), executed := devices,
          thrown := none } := by
  intro devices
  induction devices with
  | nil => intro _; rfl
  | cons d t ih =>
    intro h
    have hd : exec d command = Except.ok (res d) := h d (List.mem_cons_self d t)
    have ht := ih (fun x hx => h x (List.mem_cons_of_mem d hx))
    simp [executeCommandOnDevices, hd, ht, successBlock, List.append_assoc]

lemma executeCommandOnDevices_fail (exec : ExecFn) (command : String)
    (res : Device → String) :
    ∀ (pre : List Device) (dk : Device) (post : List Device) (e : String),
      (∀ d ∈ pre, exec d command = Except.ok (res d)) →
      exec dk command = Except.error e →
      executeCommandOnDevices exec (pre ++ dk :: post) command =
        { output := pre.flatMap (successBlock res) ++ deviceHeader dk,
          executed := pre ++ [dk], thrown := some e } := by
  intro pre
  induction pre with
  | nil =>
    intro dk post e _ hdk
    simp [executeCommandOnDevices, hdk]
  | cons d t ih =>
    intro dk post e hpre hdk
    have hd : exec d command = Except.ok (res d) := hpre d (List.mem_cons_self d t)
    have ht := ih dk post e (fun x hx => hpre x (List.mem_cons_of_mem d hx)) hdk
    simp [executeCommandOnDevices, hd, ht, successBlock, List.append_assoc]

--==============================
-- claim theorems
--==============================

/-- C10: formatDeviceList returns the concatenation, in input order, of
one line per device of the form a dash, a space, the device status
string and a newline; the empty list yields the empty string.  (The
underlying reduce never mutates its input; in this pure embedding the
argument list is a value.) -/
theorem c10_formatDeviceList_concat (deviceList : List Device) :
    formatDeviceList deviceList =
        String.join (deviceList.map (fun device => "- " ++ device.toStatusString ++ "\n"))
      ∧ formatDeviceList [] = "" := by
  constructor
  · have h := foldl_append_join (fun device => "- " ++ device.toStatusString ++ "\n")
      deviceList ""
    simp only [formatDeviceList]
    rw [show (fun (previousValue : String) (device : Device) =>
        previousValue ++ "- " ++ device.toStatusString ++ "\n")
      = (fun (a : String) (d : Device) => a ++ ("- " ++ d.toStatusString ++ "\n")) from by
        funext a d
        apply String.ext
        simp]
    rw [h]
    apply String.ext
    simp
  · rfl

/-- C8: for every device list, the online and offline sublists form a
partition: their concatenation is a permutation of the input, no device
is in both, every device of the input is in one of the two, and each
sublist preserves the input order (is a sublist of the input). -/
theorem c8_partition (devices : List Device) :
    (onlineDevices devices ++ offlineDevices devices).Perm devices
      ∧ (∀ d, ¬(d ∈ onlineDevices devices ∧ d ∈ offlineDevices devices))
      ∧ (∀ d ∈ devices, d ∈ onlineDevices devices ∨ d ∈ offlineDevices devices)
      ∧ (onlineDevices devices).Sublist devices
      ∧ (offlineDevices devices).Sublist devices := by
  refine ⟨?_, ?_, ?_, ?_, ?_⟩
  · exact List.filter_append_perm (fun device => device.isOnline) devices
  · intro d hd
    rcases hd with ⟨h1, h2⟩
    simp [onlineDevices, offlineDevices, List.mem_filter] at h1 h2
    rw [h1.2] at h2
    exact absurd h2.2 (by simp)
  · intro d hd
    by_cases h : d.isOnline
    · exact Or.inl (by simp [onlineDevices, List.mem_filter, hd, h])
    · exact Or.inr (by simp [offlineDevices, List.mem_filter, hd, h])
  · exact List.filter_sublist devices
  · exact List.filter_sublist devices

/-- C5: on the empty device list, the one-shot run emits the no-devices
message on the error stream, invokes no command execution and returns
normally (nothing thrown). -/
theorem c5_empty_list (exec : ExecFn) (command : String) :
    executeForOnlineDevices exec [] command =
      { output := [Out.err "no devices detected\n"], executed := [], thrown := none } :=
  rfl

/-- C6: on a non-empty device list with no online device, the one-shot
run reports all those devices as offline and invokes no command
execution. -/
theorem c6_all_offline (exec : ExecFn) (command : String) (devices : List Device)
    (h1 : devices ≠ []) (h2 : ∀ d ∈ devices, d.isOnline = false) :
    executeForOnlineDevices exec devices command =
      { output := [Out.log ("offline devices detected:\n" ++ formatDeviceList devices)],
        executed := [], thrown := none } := by
  have honline : onlineDevices devices = [] := by
    simp only [onlineDevices, List.filter_eq_nil_iff]
    intro d hd
    simp [h2 d hd]
  have hoffline : offlineDevices devices = devices := by
    rw [offlineDevices, List.filter_eq_self]
    intro d hd
    simp [h2 d hd]
  simp [executeForOnlineDevices, honline, hoffline, h1]

/-- Witness for C6 at the concrete offline device B. -/
theorem c6_witness :
    ([devB] ≠ ([] : List Device))
      ∧ (∀ d ∈ [devB], d.isOnline = false)
      ∧ executeForOnlineDevices okExec [devB] "adb devices" =
          { output := [Out.log "offline devices detected:\n- B Nexus offline\n"],
            executed := [], thrown := none } := by
  refine ⟨by decide, by decide, ?_⟩
  rw [c6_all_offline okExec "adb devices" [devB] (by decide) (by decide)]
  decide

/-- C4: on a device list with at least one online device, when every
execution succeeds, the one-shot run executes the command exactly once
per online device, sequentially in snapshot order, printing for each one
a labeled block headed with Result for id (model) followed by the
execution output. -/
theorem c4_online_success (exec : ExecFn) (command : String) (devices : List Device)
    (res : Device → String)
    (h1 : onlineDevices devices ≠ [])
    (h2 : ∀ d ∈ onlineDevices devices, exec d command = Except.ok (res d)) :
    executeForOnlineDevices exec devices command =
      { output := Out.log ("devices detected:\n" ++ formatDeviceList (onlineDevices devices))
          :: (onlineDevices devices).flatMap (successBlock res),
        executed := onlineDevices devices,
        thrown := none } := by
  have h := executeCommandOnDevices_success exec command res (onlineDevices devices) h2
  simp [executeForOnlineDevices, h, h1]

/-- Witness for C4 at the single online device A with model Pixel: the
run produces exactly one block headed Result for A (Pixel). -/
theorem c4_witness :
    (onlineDevices [devA] ≠ [])
      ∧ (∀ d ∈ onlineDevices [devA],
          okExec d "adb devices" = Except.ok ("output for " ++ d.id))
      ∧ executeForOnlineDevices okExec [devA] "adb devices" =
          { output := [Out.log "devices detected:\n- A Pixel online\n",
                       Out.log "",
                       Out.log "========================================",
                       Out.log "Result for A (Pixel)",
                       Out.log "========================================",
                       Out.log "output for A"],
            executed := [devA],
            thrown := none } := by
  have hall : ∀ d ∈ onlineDevices [devA],
      okExec d "adb devices" = Except.ok ("output for " ++ d.id) := by
    intro d hd
    have h : onlineDevices [devA] = [devA] := rfl
    rw [h] at hd
    simp only [List.mem_singleton] at hd
    subst hd
    rfl
  refine ⟨by decide, hall, ?_⟩
  rw [c4_online_success okExec "adb devices" [devA] (fun d => "output for " ++ d.id)
    (by decide) hall]
  decide

/-- C9: on a device list with at least one online device (in particular
when offline devices are also present), the run prints the online device
list header and the execution output for the online sublist only, and
every device actually executed on is online; no offline report is
emitted. -/
theorem c9_mixed_list (exec : ExecFn) (command : String) (devices : List Device)
    (h1 : onlineDevices devices ≠ []) (h2 : offlineDevices devices ≠ []) :
    (executeForOnlineDevices exec devices command).output =
        Out.log ("devices detected:\n" ++ formatDeviceList (onlineDevices devices))
          :: (executeCommandOnDevices exec (onlineDevices devices) command).output
      ∧ (executeForOnlineDevices exec devices command).executed =
          (executeCommandOnDevices exec (onlineDevices devices) command).executed
      ∧ ∀ d ∈ (executeForOnlineDevices exec devices command).executed, d.isOnline = true := by
  have hbranch : executeForOnlineDevices exec devices command =
      { output := Out.log ("devices detected:\n"
            ++ formatDeviceList (onlineDevices devices))
          :: (executeCommandOnDevices exec (onlineDevices devices) command).output,
        executed := (executeCommandOnDevices exec (onlineDevices devices) command).executed,
        thrown := (executeCommandOnDevices exec (onlineDevices devices) command).thrown } := by
    simp [executeForOnlineDevices, h1]
  refine ⟨by rw [hbranch], by rw [hbranch], ?_⟩
  intro d hd
  rw [hbranch] at hd
  have hsub := executeCommandOnDevices_executed_sublist exec command (onlineDevices devices)
  have hmem : d ∈ onlineDevices devices := hsub.mem hd
  have hmem2 : d ∈ devices ∧ d.isOnline = true := by
    simpa [onlineDevices, List.mem_filter] using hmem
  exact hmem2.2

/-- Witness for C9 at the mixed list of online device A and offline
device B. -/
theorem c9_witness :
    (onlineDevices [devA, devB] ≠ [])
      ∧ (offlineDevices [devA, devB] ≠ [])
      ∧ ((executeForOnlineDevices okExec [devA, devB] "adb devices").output =
            Out.log ("devices detected:\n" ++ formatDeviceList (onlineDevices [devA, devB]))
              :: (executeCommandOnDevices okExec (onlineDevices [devA, devB])
                    "adb devices").output
          ∧ (executeForOnlineDevices okExec [devA, devB] "adb devices").executed =
              (executeCommandOnDevices okExec (onlineDevices [devA, devB])
                "adb devices").executed
          ∧ ∀ d ∈ (executeForOnlineDevices okExec [devA, devB] "adb devices").executed,
              d.isOnline = true) :=
  ⟨by decide, by decide,
   c9_mixed_list okExec "adb devices" [devA, devB] (by decide) (by decide)⟩

/-- C2: in one batch whose devices are all online, if every execution
before device dk succeeds and execution on dk throws, then the success
blocks for the earlier devices have been printed, dk gets only its
header block, none of the later devices is executed, and the listener
reports the thrown error on the error stream. -/
theorem c2_batch_fail_fast (exec : ExecFn) (command : String)
    (pre : List Device) (dk : Device) (post : List Device)
    (res : Device → String) (e : String)
    (honline : ∀ d ∈ pre ++ dk :: post, d.isOnline = true)
    (hpre : ∀ d ∈ pre, exec d command = Except.ok (res d))
    (hdk : exec dk command = Except.error e) :
    executeCommandOnDevices exec (pre ++ dk :: post) command =
        { output := pre.flatMap (successBlock res) ++ deviceHeader dk,
          executed := pre ++ [dk], thrown := some e }
      ∧ newOrChangedDevicesListener exec command (pre ++ dk :: post) =
        { output := Out.log ("devices detected:\n"
              ++ formatDeviceList (pre ++ dk :: post))
            :: (pre.flatMap (successBlock res) ++ deviceHeader dk ++ [Out.err e]),
          executed := pre ++ [dk],
          calls := [DetectorCall.unwatch] } := by
  have hexec := executeCommandOnDevices_fail exec command res pre dk post e hpre hdk
  have honline2 : onlineDevices (pre ++ dk :: post) = pre ++ dk :: post := by
    rw [onlineDevices, List.filter_eq_self]
    exact honline
  have hne : onlineDevices (pre ++ dk :: post) ≠ [] := by
    rw [honline2]
    simp
  have hfor : executeForOnlineDevices exec (pre ++ dk :: post) command =
      { output := Out.log ("devices detected:\n"
            ++ formatDeviceList (pre ++ dk :: post))
          :: (pre.flatMap (successBlock res) ++ deviceHeader dk),
        executed := pre ++ [dk], thrown := some e } := by
    simp [executeForOnlineDevices, honline2, hexec, hne]
  refine ⟨hexec, ?_⟩
  simp [newOrChangedDevicesListener, hfor]

/-- Witness for C2 at the batch A, C, D (all online) where execution on
C throws boom: A's result is printed, C gets only its header, D is never
executed, and the error is reported. -/
theorem c2_witness :
    (∀ d ∈ [devA] ++ devC :: [devD], d.isOnline = true)
      ∧ (∀ d ∈ [devA], failOnCExec d "cmd" = Except.ok ("output for " ++ d.id))
      ∧ failOnCExec devC "cmd" = Except.error "boom"
      ∧ executeCommandOnDevices failOnCExec ([devA] ++ devC :: [devD]) "cmd" =
          { output := [devA].flatMap (successBlock (fun d => "output for " ++ d.id))
              ++ deviceHeader devC,
            executed := [devA] ++ [devC], thrown := some "boom" }
      ∧ newOrChangedDevicesListener failOnCExec "cmd" ([devA] ++ devC :: [devD]) =
          { output := Out.log ("devices detected:\n"
                ++ formatDeviceList ([devA] ++ devC :: [devD]))
              :: ([devA].flatMap (successBlock (fun d => "output for " ++ d.id))
                  ++ deviceHeader devC ++ [Out.err "boom"]),
            executed := [devA] ++ [devC],
            calls := [DetectorCall.unwatch] } := by
  have hpre : ∀ d ∈ [devA], failOnCExec d "cmd" = Except.ok ("output for " ++ d.id) := by
    intro d hd
    simp only [List.mem_singleton] at hd
    subst hd
    rfl
  have h := c2_batch_fail_fast failOnCExec "cmd" [devA] devC [devD]
    (fun d => "output for " ++ d.id) "boom" (by decide) hpre rfl
  exact ⟨by decide, hpre, rfl, h.1, h.2⟩

/-- C1 counterexample: a batch with the single online device A whose
execution throws.  The failure is an execution failure, not a query
failure (the thrown error comes out of executeForOnlineDevices), yet the
listener calls unwatch, disabling the watch — refuting the claim that an
execution failure never disables the watch. -/
theorem c1_counterexample :
    (executeForOnlineDevices failingExec [devA] "cmd").thrown = some "command failed"
      ∧ (newOrChangedDevicesListener failingExec "cmd" [devA]).calls
          = [DetectorCall.unwatch] := by
  decide

/-- C1 amended: when execution of a batch throws (the only failure the
listener can see), the listener reports the error on the error stream
and does not terminate the process, but it does call unwatch, disabling
the watch — its catch block treats an execution failure exactly like a
query failure. -/
theorem c1_amended_unwatch (exec : ExecFn) (command : String) (devices : List Device)
    (e : String)
    (h : (executeForOnlineDevices exec devices command).thrown = some e) :
    newOrChangedDevicesListener exec command devices =
      { output := (executeForOnlineDevices exec devices command).output ++ [Out.err e],
        executed := (executeForOnlineDevices exec devices command).executed,
        calls := [DetectorCall.unwatch] } := by
  simp [newOrChangedDevicesListener, h]

/-- Witness for the amended C1 at the failing single-device batch A. -/
theorem c1_amended_witness :
    ((executeForOnlineDevices failingExec [devA] "cmd").thrown = some "command failed")
      ∧ newOrChangedDevicesListener failingExec "cmd" [devA] =
          { output := (executeForOnlineDevices failingExec [devA] "cmd").output
              ++ [Out.err "command failed"],
            executed := (executeForOnlineDevices failingExec [devA] "cmd").executed,
            calls := [DetectorCall.unwatch] } :=
  ⟨by decide, c1_amended_unwatch failingExec "cmd" [devA] "command failed" (by decide)⟩

/-- C3: when the initial device query throws, the error is printed to
the error stream and the process exits with code 1 with no detector call
made (the watch is never started); when the initial run does not throw,
the run completes without a non-zero exit, and with the continue flag
set it performs exactly the executeForFutureDevices detector calls. -/
theorem c3_initial_query (exec : ExecFn) (command : String) (continueFlag : Bool) :
    (∀ e : String, mainRun (Except.error e) exec command continueFlag =
        { output := [Out.err e], executed := [], outcome := Outcome.exited 1, calls := [] })
      ∧ (∀ devices : List Device,
          (executeForOnlineDevices exec devices command).thrown = none →
          (mainRun (Except.ok devices) exec command continueFlag).outcome = Outcome.completed
            ∧ (continueFlag = true →
                (mainRun (Except.ok devices) exec command continueFlag).calls
                  = executeForFutureDevices)) := by
  refine ⟨fun e => rfl, fun devices h => ?_⟩
  constructor
  · simp [mainRun, h]
  · intro hc
    simp [mainRun, h, hc]

/-- Witness for C3: a concrete failing query exits with code 1 and no
detector call; the empty snapshot completes and, with the continue flag,
wires the watch. -/
theorem c3_witness :
    (mainRun (Except.error "cannot enumerate devices") okExec "cmd" true =
        { output := [Out.err "cannot enumerate devices"], executed := [],
          outcome := Outcome.exited 1, calls := [] })
      ∧ ((executeForOnlineDevices okExec [] "cmd").thrown = none)
      ∧ (mainRun (Except.ok []) okExec "cmd" true).outcome = Outcome.completed
      ∧ (mainRun (Except.ok []) okExec "cmd" true).calls = executeForFutureDevices := by
  have h := c3_initial_query okExec "cmd" true
  exact ⟨h.1 "cannot enumerate devices", by decide, (h.2 [] (by decide)).1,
    (h.2 [] (by decide)).2 rfl⟩

/-- C7: with the continue flag set and a successful initial run, the
script produces the one-shot run output and makes exactly the detector
calls subscribing the newOrChangedDevicesListener to devicesAdded and to
devicesChanged before starting the watch; and a notification delivered
to the registered listener runs the partition and execution logic on
exactly the device list carried by that notification. -/
theorem c7_continuous_wiring (exec : ExecFn) (command : String) (devices : List Device)
    (h : (executeForOnlineDevices exec devices command).thrown = none) :
    (mainRun (Except.ok devices) exec command true).output =
        (executeForOnlineDevices exec devices command).output
      ∧ (mainRun (Except.ok devices) exec command true).calls =
          [DetectorCall.onDevicesAdded ListenerTag.newOrChanged,
           DetectorCall.onDevicesChanged ListenerTag.newOrChanged,
           DetectorCall.watch]
      ∧ (∀ batch : List Device,
          runListener ListenerTag.newOrChanged exec command batch =
            newOrChangedDevicesListener exec command batch)
      ∧ (∀ batch : List Device,
          (newOrChangedDevicesListener exec command batch).executed =
            (executeForOnlineDevices exec batch command).executed) := by
  refine ⟨by simp [mainRun, h], by simp [mainRun, h, executeForFutureDevices],
    fun batch => rfl, fun batch => ?_⟩
  simp only [newOrChangedDevicesListener]
  cases hth : (executeForOnlineDevices exec batch command).thrown <;> simp [hth]

/-- Witness for C7 at the empty snapshot with the always-succeeding
backend. -/
theorem c7_witness :
    ((executeForOnlineDevices okExec [] "cmd").thrown = none)
      ∧ ((mainRun (Except.ok []) okExec "cmd" true).output =
            (executeForOnlineDevices okExec [] "cmd").output
          ∧ (mainRun (Except.ok []) okExec "cmd" true).calls =
              [DetectorCall.onDevicesAdded ListenerTag.newOrChanged,
               DetectorCall.onDevicesChanged ListenerTag.newOrChanged,
               DetectorCall.watch]
          ∧ (∀ batch : List Device,
              runListener ListenerTag.newOrChanged okExec "cmd" batch =
                newOrChangedDevicesListener okExec "cmd" batch)
          ∧ (∀ batch : List Device,
              (newOrChangedDevicesListener okExec "cmd" batch).executed =
                (executeForOnlineDevices okExec batch "cmd").executed)) :=
  ⟨by decide, c7_continuous_wiring okExec "cmd" [] (by decide)⟩

end AdbMultiplexer
